import Mathlib

/-!
Verification development for the `unsegen_terminal` crate: a shallow
embedding of the terminal-emulation core (cell buffer, line model,
dual-window controller, scrollback viewport, pty facade) together with
theorems settling the specification claims.

Conventions of the embedding:
* Rust `i32`-based indices (`ColIndex`, `RowIndex`) become `Int`;
  `Width`/`Height` (non-negative) become `Nat`.
* A Rust function that may panic is modelled with `Except Unit _`,
  where `.error ()` stands for the panic.
* In-place mutation becomes explicit state passing: a method on `&mut
  self` returns the updated value (paired with its result).
* Types owned by the external `unsegen` crate and by the repository
  modules absent from `src/` (`ansi`, `index`) are modelled from the
  spec; each such definition carries a doc comment saying so.
-/

/-- Modelled from the spec: `unsegen::base::Color` as used by
`ansi_to_unsegen_color` (named palette constants, RGB triples, and
indexed passthrough). -/
inductive UColor where
  | Black | Red | Green | Yellow | Blue | Magenta | Cyan | White
  | LightBlack | LightRed | LightGreen | LightYellow
  | LightBlue | LightMagenta | LightCyan | LightWhite
  | Rgb (r g b : Nat)
  | Ansi (c : Nat)
  deriving DecidableEq, Repr

/-- Modelled from the spec: a cell style (fg/bg color, bold, italic,
underline, inverse), §3 "GraphemeCell". -/
structure Style where
  fg : UColor
  bg : UColor
  bold : Bool
  italic : Bool
  underline : Bool
  invert : Bool
  deriving DecidableEq, Repr

/-- Modelled from the spec: the default style (blank defaults). -/
def Style.default : Style :=
  { fg := UColor.White, bg := UColor.Black
    bold := false, italic := false, underline := false, invert := false }

/-- Modelled from the spec: `unsegen::base::BoolModifyMode` — a boolean
style field is either left alone, set to a value, or toggled. -/
inductive BoolModifyMode where
  | keep
  | set (b : Bool)
  | toggle
  deriving DecidableEq, Repr

def BoolModifyMode.modifyBool : BoolModifyMode → Bool → Bool
  | .keep, b => b
  | .set v, _ => v
  | .toggle, b => !b

/-- Stacking one modify mode on top of another. -/
def BoolModifyMode.onTopOf : BoolModifyMode → BoolModifyMode → BoolModifyMode
  | .keep, bot => bot
  | .set v, _ => .set v
  | .toggle, .keep => .toggle
  | .toggle, .set v => .set (!v)
  | .toggle, .toggle => .keep

/-- Modelled from the spec: `unsegen::base::StyleModifier` — a partial
style change folded into written cells (§3 "CursorState"). -/
structure StyleModifier where
  fg : Option UColor
  bg : Option UColor
  bold : BoolModifyMode
  italic : BoolModifyMode
  underline : BoolModifyMode
  invert : BoolModifyMode
  deriving DecidableEq, Repr

/-- `StyleModifier::new()`: the identity modifier. -/
def StyleModifier.new : StyleModifier :=
  { fg := none, bg := none
    bold := .keep, italic := .keep, underline := .keep, invert := .keep }

/-- `modifier.modify(&mut style)`: apply a modifier to a style. -/
def StyleModifier.modifyStyle (m : StyleModifier) (s : Style) : Style :=
  { fg := m.fg.getD s.fg
    bg := m.bg.getD s.bg
    bold := m.bold.modifyBool s.bold
    italic := m.italic.modifyBool s.italic
    underline := m.underline.modifyBool s.underline
    invert := m.invert.modifyBool s.invert }

/-- Composition of modifiers (`top` applied after `bot`). -/
def StyleModifier.onTopOf (top bot : StyleModifier) : StyleModifier :=
  { fg := top.fg.orElse (fun _ => bot.fg)
    bg := top.bg.orElse (fun _ => bot.bg)
    bold := top.bold.onTopOf bot.bold
    italic := top.italic.onTopOf bot.italic
    underline := top.underline.onTopOf bot.underline
    invert := top.invert.onTopOf bot.invert }

/-- Builders mirroring `StyleModifier::new().bold(..)` etc. -/
def StyleModifier.withBold (m : StyleModifier) (v : BoolModifyMode) : StyleModifier :=
  { m with bold := v }
def StyleModifier.withItalic (m : StyleModifier) (v : BoolModifyMode) : StyleModifier :=
  { m with italic := v }
def StyleModifier.withUnderline (m : StyleModifier) (v : BoolModifyMode) : StyleModifier :=
  { m with underline := v }
def StyleModifier.withInvert (m : StyleModifier) (v : BoolModifyMode) : StyleModifier :=
  { m with invert := v }
def StyleModifier.withFg (m : StyleModifier) (c : UColor) : StyleModifier :=
  { m with fg := some c }
def StyleModifier.withBg (m : StyleModifier) (c : UColor) : StyleModifier :=
  { m with bg := some c }

/-- Modelled from the spec: `unsegen::base::StyledGraphemeCluster` — a
user-visible grapheme cluster plus a style (§3 "GraphemeCell"). The
default cell is a blank with default style. -/
structure StyledGraphemeCluster where
  grapheme : Char
  style : Style
  deriving DecidableEq, Repr

def StyledGraphemeCluster.default : StyledGraphemeCluster :=
  { grapheme := ' ', style := Style.default }

/-! ## Line (src/terminalwindow.rs, `struct Line`) -/

/-- `Line { content: Vec<StyledGraphemeCluster> }`. -/
structure Line where
  content : List StyledGraphemeCluster
  deriving DecidableEq, Repr

/-- `Line::empty()`. -/
def Line.empty : Line := { content := [] }

/-- `Line::length()`. -/
def Line.length (l : Line) : Nat := l.content.length

/-- `Line::clear()`. -/
def Line.clear (_l : Line) : Line := { content := [] }

/-- `Line::height_for_width`: `1` when `width == 0`, otherwise
`(len - 1) / width + 1` where the subtraction saturates at `0`
(`checked_sub(1).unwrap_or(0)`). -/
def Line.height_for_width (l : Line) (width : Nat) : Nat :=
  if width = 0 then 1
  else (l.length - 1) / width + 1

/-- `Line::get_cell_mut(x)`: for `x < 0` return no reference and leave
the line unchanged (the early return precedes any growth); otherwise
extend the content with default cells up to index `x` and return the
index of the (now existing) cell as the "mutable reference". -/
def Line.get_cell_mut (l : Line) (x : Int) : Line × Option Nat :=
  if x < 0 then (l, none)
  else
    let xn := x.toNat
    let missing := xn + 1 - l.content.length
    let grown : Line :=
      { content := l.content ++ List.replicate missing StyledGraphemeCluster.default }
    (grown, some xn)

/-- `Line::get_cell(x)`: `None` for negative `x`; otherwise
`content.get(x).expect(..)` — the `expect` panics (`.error ()`) when
`x` is past the end of the content. -/
def Line.get_cell (l : Line) (x : Int) : Except Unit (Option StyledGraphemeCluster) :=
  if x < 0 then .ok none
  else
    match l.content[x.toNat]? with
    | some c => .ok (some c)
    | none => .error ()

/-! ## LineBuffer (src/terminalwindow.rs, `struct LineBuffer`) -/

/-- `LineBuffer { lines, window_width, default_style }`. -/
structure LineBuffer where
  lines : List Line
  window_width : Nat
  default_style : Style
  deriving DecidableEq, Repr

/-- `LineBuffer::new()`. -/
def LineBuffer.new : LineBuffer :=
  { lines := [], window_width := 0, default_style := Style.default }

/-- `LineBuffer::height_as_displayed()`: sum over all lines of
`height_for_width(window_width)`. -/
def LineBuffer.height_as_displayed (b : LineBuffer) : Nat :=
  (b.lines.map (fun l => l.height_for_width b.window_width)).sum

/-- `LineBuffer::set_window_width`. -/
def LineBuffer.set_window_width (b : LineBuffer) (w : Nat) : LineBuffer :=
  { b with window_width := w }

/-- `LineBuffer::get_cell_mut(x, y)` (the `CursorTarget` impl): for
`y < 0` return no reference and leave the buffer unchanged; otherwise
grow `lines` vertically up to index `y` with empty lines, then delegate
to `Line::get_cell_mut` on line `y` (which may itself return no
reference for `x < 0`, with the vertical growth already performed).
The "mutable reference" is the pair of indices of the cell. -/
def LineBuffer.get_cell_mut (b : LineBuffer) (x y : Int) :
    LineBuffer × Option (Nat × Nat) :=
  if y < 0 then (b, none)
  else
    let yn := y.toNat
    let missing := yn + 1 - b.lines.length
    let grownLines := b.lines ++ List.replicate missing Line.empty
    let line := grownLines.getD yn Line.empty
    let lr := line.get_cell_mut x
    let b' : LineBuffer := { b with lines := grownLines.set yn lr.1 }
    (b', lr.2.map (fun xn => (xn, yn)))

/-- `LineBuffer::get_cell(x, y)`: `None` for `y < 0`; otherwise
`lines.get(y).expect(..)` — panics when `y` is past the end — then
`Line::get_cell(x)`. -/
def LineBuffer.get_cell (b : LineBuffer) (x y : Int) :
    Except Unit (Option StyledGraphemeCluster) :=
  if y < 0 then .ok none
  else
    match b.lines[y.toNat]? with
    | some line => line.get_cell x
    | none => .error ()

/-- Pure read of the cell stored at column `i` of row `j` (no growth,
no panic); used to state preservation properties. -/
def LineBuffer.cellAt (b : LineBuffer) (i j : Nat) : Option StyledGraphemeCluster :=
  match b.lines[j]? with
  | some line => line.content[i]?
  | none => none

/-- Dereference a "mutable reference" produced by `get_cell_mut`. -/
def LineBuffer.readRef (b : LineBuffer) (r : Nat × Nat) : Option StyledGraphemeCluster :=
  b.cellAt r.1 r.2

/-- Write through a "mutable reference" produced by `get_cell_mut`. -/
def LineBuffer.writeRef (b : LineBuffer) (r : Nat × Nat)
    (f : StyledGraphemeCluster → StyledGraphemeCluster) : LineBuffer :=
  match b.lines[r.2]? with
  | some line =>
    match line.content[r.1]? with
    | some c =>
      { b with lines := b.lines.set r.2 { content := line.content.set r.1 (f c) } }
    | none => b
  | none => b

/-! ## Cursor (external `unsegen::base::Cursor` over the `LineBuffer`
target; modelled from the spec, §4.4–§4.5) -/

/-- Modelled from the spec: `unsegen::base::CursorState` — cursor row,
column (which "may point past end-of-line/buffer") and the active style
modifier ("active modifier folded into each written cell", §3). The
default state sits at the origin with the identity modifier. -/
structure CursorState where
  x : Int
  y : Int
  style_modifier : StyleModifier
  deriving DecidableEq, Repr

def CursorState.default : CursorState :=
  { x := 0, y := 0, style_modifier := StyleModifier.new }

/-- A cursor borrowed over a `LineBuffer` (`Cursor::from_state`). -/
structure BufCursor where
  state : CursorState
  buffer : LineBuffer
  deriving DecidableEq, Repr

namespace BufCursor

/-- Modelled from the spec: writing one grapheme cluster at the cursor —
the target cell (grown on demand through `get_cell_mut`) receives the
cluster with the active modifier folded into the target's default
style; the column advances by one (§4.4 `input(ch)`). -/
def writeCluster (cur : BufCursor) (c : Char) : BufCursor :=
  let (b', ref) := cur.buffer.get_cell_mut cur.state.x cur.state.y
  let b'' :=
    match ref with
    | some r =>
      b'.writeRef r (fun _ =>
        { grapheme := c
          style := cur.state.style_modifier.modifyStyle b'.default_style })
    | none => b'
  { state := { cur.state with x := cur.state.x + 1 }, buffer := b'' }

/-- Modelled from the spec: a line wrap moves the cursor to column 0 of
the next row (§4.5); a `'\n'` inside `Cursor::write` performs exactly
this wrap. The repository's own test (`"te\nst"` renders as `te` over
`st`, src/lib.rs test module) pins the column reset to 0. -/
def wrapLine (cur : BufCursor) : BufCursor :=
  { cur with state := { cur.state with x := 0, y := cur.state.y + 1 } }

/-- Modelled from the spec: `Cursor::write(text)` processes the text
cluster by cluster; `'\n'` wraps the line, anything else is written at
the cursor. -/
def write (cur : BufCursor) (text : List Char) : BufCursor :=
  text.foldl (fun c ch => if ch = '\n' then c.wrapLine else c.writeCluster ch) cur

/-- Rust's `i32::clamp(lo, hi)` on our `Int` model. -/
def intClamp (v lo hi : Int) : Int := min hi (max lo v)

/-- Modelled from the spec: relative cursor moves, "clamped at 0 on the
left and bottom-top of the buffer" (§4.4). -/
def moveBy (cur : BufCursor) (dx dy : Int) : BufCursor :=
  { cur with state :=
    { cur.state with x := max 0 (cur.state.x + dx), y := max 0 (cur.state.y + dy) } }

/-- Modelled from the spec: absolute cursor move; "Negative absolute
positions clamp to 0" (§4.5). -/
def moveTo (cur : BufCursor) (x y : Int) : BufCursor :=
  { cur with state := { cur.state with x := max 0 x, y := max 0 y } }

def moveToX (cur : BufCursor) (x : Int) : BufCursor :=
  { cur with state := { cur.state with x := max 0 x } }

def moveToY (cur : BufCursor) (y : Int) : BufCursor :=
  { cur with state := { cur.state with y := max 0 y } }

def moveLeft (cur : BufCursor) : BufCursor := cur.moveBy (-1) 0

def moveRight (cur : BufCursor) : BufCursor := cur.moveBy 1 0

/-- Modelled from the spec: `carriage_return` sets the column to 0. -/
def carriageReturn (cur : BufCursor) : BufCursor :=
  { cur with state := { cur.state with x := 0 } }

def getRow (cur : BufCursor) : Int := cur.state.y

def setStyleModifier (cur : BufCursor) (m : StyleModifier) : BufCursor :=
  { cur with state := { cur.state with style_modifier := m } }

def applyStyleModifier (cur : BufCursor) (m : StyleModifier) : BufCursor :=
  { cur with state :=
    { cur.state with style_modifier := m.onTopOf cur.state.style_modifier } }

/-- `cursor.get_current_cell_mut()` followed by a style modification —
the lookup goes through the target's `get_cell_mut`, so it grows the
buffer on demand; when a cell is obtained, `f` is applied to it. -/
def modifyCurrentCell (cur : BufCursor)
    (f : StyledGraphemeCluster → StyledGraphemeCluster) : BufCursor :=
  let (b', ref) := cur.buffer.get_cell_mut cur.state.x cur.state.y
  let b'' :=
    match ref with
    | some r => b'.writeRef r f
    | none => b'
  { cur with buffer := b'' }

/-- Modelled from the spec: clear the current line right of (and
including) the cursor, "preserving style" — affected cells become
blanks carrying the active default style; cell count is preserved. -/
def clearLineRight (cur : BufCursor) : BufCursor :=
  if cur.state.y < 0 then cur
  else
    match cur.buffer.lines[cur.state.y.toNat]? with
    | none => cur
    | some line =>
      let blank : StyledGraphemeCluster :=
        { grapheme := ' '
          style := cur.state.style_modifier.modifyStyle cur.buffer.default_style }
      let content' := line.content.mapIdx (fun i c =>
        if cur.state.x ≤ (i : Int) then blank else c)
      { cur with buffer :=
        { cur.buffer with
          lines := cur.buffer.lines.set cur.state.y.toNat { content := content' } } }

/-- Modelled from the spec: clear the current line left of (and
including) the cursor. -/
def clearLineLeft (cur : BufCursor) : BufCursor :=
  if cur.state.y < 0 then cur
  else
    match cur.buffer.lines[cur.state.y.toNat]? with
    | none => cur
    | some line =>
      let blank : StyledGraphemeCluster :=
        { grapheme := ' '
          style := cur.state.style_modifier.modifyStyle cur.buffer.default_style }
      let content' := line.content.mapIdx (fun i c =>
        if (i : Int) ≤ cur.state.x then blank else c)
      { cur with buffer :=
        { cur.buffer with
          lines := cur.buffer.lines.set cur.state.y.toNat { content := content' } } }

/-- Modelled from the spec: clear the whole current line. -/
def clearLineAll (cur : BufCursor) : BufCursor :=
  if cur.state.y < 0 then cur
  else
    match cur.buffer.lines[cur.state.y.toNat]? with
    | none => cur
    | some line =>
      let blank : StyledGraphemeCluster :=
        { grapheme := ' '
          style := cur.state.style_modifier.modifyStyle cur.buffer.default_style }
      { cur with buffer :=
        { cur.buffer with
          lines := cur.buffer.lines.set cur.state.y.toNat
            { content := line.content.map (fun _ => blank) } } }

end BufCursor

/-! ## ansi types (repository module `ansi` is declared in src/lib.rs
but its file is not under src/; shapes modelled from the spec and from
their uses in src/terminalwindow.rs) -/

/-- Modelled from the spec: `ansi::CursorStyle`. -/
inductive CursorStyle where
  | Block | Underline | Beam
  deriving DecidableEq, Repr

/-- Modelled from the spec: `ansi::NamedColor` (the named palette). -/
inductive NamedColor where
  | Black | Red | Green | Yellow | Blue | Magenta | Cyan | White
  | BrightBlack | BrightRed | BrightGreen | BrightYellow
  | BrightBlue | BrightMagenta | BrightCyan | BrightWhite
  | Foreground | Background | CursorText | Cursor
  | DimBlack | DimRed | DimGreen | DimYellow
  | DimBlue | DimMagenta | DimCyan | DimWhite
  deriving DecidableEq, Repr

/-- Modelled from the spec: `ansi::Rgb`. -/
structure AnsiRgb where
  r : Nat
  g : Nat
  b : Nat
  deriving DecidableEq, Repr

/-- Modelled from the spec: `ansi::Color` (named / Spec(rgb) /
Indexed). -/
inductive AnsiColor where
  | Named (c : NamedColor)
  | Spec (c : AnsiRgb)
  | Indexed (c : Nat)
  deriving DecidableEq, Repr

/-- Modelled from the spec: `ansi::Attr` (SGR attributes dispatched by
`terminal_attribute`). -/
inductive Attr where
  | Reset | Bold | Dim | Italic | Underscore
  | BlinkSlow | BlinkFast | Reverse | Hidden | Strike
  | CancelBold | CancelBoldDim | CancelItalic | CancelUnderline
  | CancelBlink | CancelReverse | CancelHidden | CancelStrike
  | Foreground (color : AnsiColor)
  | Background (color : AnsiColor)
  deriving DecidableEq, Repr

/-- Modelled from the spec: `ansi::LineClearMode`. -/
inductive LineClearMode where
  | Right | Left | All
  deriving DecidableEq, Repr

/-- Modelled from the spec: `ansi::ClearMode`. -/
inductive ClearMode where
  | Below | Above | All | Saved
  deriving DecidableEq, Repr

/-- Modelled from the spec: `ansi::Mode` as matched in
`set_mode`/`unset_mode`; the catch-all covers every other mode (all of
which the handler only logs). -/
inductive Mode where
  | ShowCursor
  | SwapScreenAndSetRestoreCursor
  | OtherMode
  deriving DecidableEq, Repr

/-- `ansi_to_unsegen_color` (src/terminalwindow.rs). -/
def ansi_to_unsegen_color : AnsiColor → UColor
  | .Named c =>
    match c with
    | .Black => UColor.Black
    | .Red => UColor.Red
    | .Green => UColor.Green
    | .Yellow => UColor.Yellow
    | .Blue => UColor.Blue
    | .Magenta => UColor.Magenta
    | .Cyan => UColor.Cyan
    | .White => UColor.White
    | .BrightBlack => UColor.LightBlack
    | .BrightRed => UColor.LightRed
    | .BrightGreen => UColor.LightGreen
    | .BrightYellow => UColor.LightYellow
    | .BrightBlue => UColor.LightBlue
    | .BrightMagenta => UColor.LightMagenta
    | .BrightCyan => UColor.LightCyan
    | .BrightWhite => UColor.LightWhite
    | .Foreground => UColor.White
    | .Background => UColor.Black
    | .CursorText => UColor.Black
    | .Cursor => UColor.Black
    | .DimBlack => UColor.Black
    | .DimRed => UColor.Red
    | .DimGreen => UColor.Green
    | .DimYellow => UColor.Yellow
    | .DimBlue => UColor.Blue
    | .DimMagenta => UColor.Magenta
    | .DimCyan => UColor.Cyan
    | .DimWhite => UColor.White
  | .Spec c => UColor.Rgb c.r c.g c.b
  | .Indexed c => UColor.Ansi c

/-! ## TerminalWindow (src/terminalwindow.rs, `struct TerminalWindow`) -/

structure TerminalWindow where
  window_width : Nat
  window_height : Nat
  buffer : LineBuffer
  cursor_state : CursorState
  scrollback_position : Option Int
  scroll_step : Nat
  cursor_style : CursorStyle
  show_cursor : Bool
  deriving DecidableEq, Repr

namespace TerminalWindow

/-- `TerminalWindow::new()`. -/
def new : TerminalWindow :=
  { window_width := 0
    window_height := 0
    buffer := LineBuffer.new
    cursor_state := CursorState.default
    scrollback_position := none
    scroll_step := 1
    cursor_style := CursorStyle.Block
    show_cursor := true }

/-- `current_scrollback_pos`: the position of the first displayed row of
the buffer that will NOT be displayed; `None` means the tail. -/
def current_scrollback_pos (tw : TerminalWindow) : Int :=
  tw.scrollback_position.getD (tw.buffer.height_as_displayed : Int)

/-- `set_width`: updates the window width and the buffer's soft width. -/
def set_width (tw : TerminalWindow) (w : Nat) : TerminalWindow :=
  { tw with window_width := w, buffer := tw.buffer.set_window_width w }

/-- `set_height`. -/
def set_height (tw : TerminalWindow) (h : Nat) : TerminalWindow :=
  { tw with window_height := h }

/-- `with_cursor(f)`: build a cursor from the stored state over the
buffer, run `f`, store state and buffer back. -/
def with_cursor (tw : TerminalWindow) (f : BufCursor → BufCursor) : TerminalWindow :=
  let cur := f { state := tw.cursor_state, buffer := tw.buffer }
  { tw with cursor_state := cur.state, buffer := cur.buffer }

/-- `line_to_buffer_pos_y`: `max(0, lines.len - window_height) + line`. -/
def line_to_buffer_pos_y (tw : TerminalWindow) (line : Nat) : Int :=
  max 0 ((tw.buffer.lines.length : Int) - (tw.window_height : Int)) + (line : Int)

/-- `col_to_buffer_pos_x`. -/
def col_to_buffer_pos_x (_tw : TerminalWindow) (col : Nat) : Int := (col : Int)

/-- The style modifier chosen by `draw` for the cursor cell: invert
toggle for a block cursor, underline toggle for underline and beam. -/
def cursorStyleMod : CursorStyle → StyleModifier
  | .Beam => StyleModifier.new.withUnderline .toggle
  | .Block => StyleModifier.new.withInvert .toggle
  | .Underline => StyleModifier.new.withUnderline .toggle

/-- The cursor-cell toggle performed (and later reverted) by `draw`:
`with_cursor(|cursor| if let Some(cell) = cursor.get_current_cell_mut()
{ mod.modify(&mut cell.style) })`. -/
def toggleCursorCell (tw : TerminalWindow) (m : StyleModifier) : TerminalWindow :=
  tw.with_cursor (fun cur =>
    cur.modifyCurrentCell (fun cell => { cell with style := m.modifyStyle cell.style }))

/-- `TerminalWindow::draw`, restricted to its effect on `self` (the
rendering loop in the middle only reads `self.buffer.lines` and writes
into the host window): apply the cursor style toggle when
`show_cursor`, return early when the host window height or width is 0
or the buffer has no lines, otherwise render and revert the toggle. -/
def draw (tw : TerminalWindow) (width height : Nat) : TerminalWindow :=
  let m := cursorStyleMod tw.cursor_style
  let tw1 := if tw.show_cursor then tw.toggleCursorCell m else tw
  if height = 0 ∨ width = 0 ∨ tw1.buffer.lines.isEmpty then tw1
  else if tw1.show_cursor then tw1.toggleCursorCell m else tw1

end TerminalWindow

/-! ## Handler operations on the deref'd window (src/terminalwindow.rs,
`impl Handler for DualWindow`; each method reaches the active
`TerminalWindow` through `Deref`/`DerefMut`, so the per-window effect is
embedded here and lifted to `DualWindow` below) -/

namespace TerminalWindow

/-- `input(c)`: `write!(cursor, "{}", c)`. -/
def input (tw : TerminalWindow) (c : Char) : TerminalWindow :=
  tw.with_cursor (fun cur => cur.write [c])

/-- `goto(line, col)`. -/
def goto (tw : TerminalWindow) (line col : Nat) : TerminalWindow :=
  let x := tw.col_to_buffer_pos_x col
  let y := tw.line_to_buffer_pos_y line
  tw.with_cursor (fun cur => cur.moveTo x y)

/-- `goto_line(line)`. -/
def goto_line (tw : TerminalWindow) (line : Nat) : TerminalWindow :=
  let y := tw.line_to_buffer_pos_y line
  tw.with_cursor (fun cur => cur.moveToY y)

/-- `goto_col(col)`. -/
def goto_col (tw : TerminalWindow) (col : Nat) : TerminalWindow :=
  let x := tw.col_to_buffer_pos_x col
  tw.with_cursor (fun cur => cur.moveToX x)

/-- `move_up(line)`: `move_by(0, -line)`. -/
def move_up (tw : TerminalWindow) (line : Nat) : TerminalWindow :=
  tw.with_cursor (fun cur => cur.moveBy 0 (-(line : Int)))

/-- `move_down(line)`: `move_by(0, line)`. -/
def move_down (tw : TerminalWindow) (line : Nat) : TerminalWindow :=
  tw.with_cursor (fun cur => cur.moveBy 0 (line : Int))

/-- `move_forward(cols)`: `cols` single steps right. -/
def move_forward (tw : TerminalWindow) (cols : Nat) : TerminalWindow :=
  tw.with_cursor (fun cur => BufCursor.moveRight^[cols] cur)

/-- `move_backward(cols)`: `cols` single steps left. -/
def move_backward (tw : TerminalWindow) (cols : Nat) : TerminalWindow :=
  tw.with_cursor (fun cur => BufCursor.moveLeft^[cols] cur)

/-- `put_tab(count)`: write `count` tab graphemes (`count` is an `i64`;
non-positive counts write nothing). -/
def put_tab (tw : TerminalWindow) (count : Int) : TerminalWindow :=
  tw.with_cursor (fun cur => (fun c => BufCursor.write c ['\t'])^[count.toNat] cur)

/-- `backspace()`: one step left. -/
def backspace (tw : TerminalWindow) : TerminalWindow :=
  tw.with_cursor BufCursor.moveLeft

/-- `carriage_return()`. -/
def carriage_return (tw : TerminalWindow) : TerminalWindow :=
  tw.with_cursor BufCursor.carriageReturn

/-- `linefeed()`: write `"\n "` (a wrap plus a sentinel space that
forces the buffer to materialize the new row), then `move_by(-1, 0)`. -/
def linefeed (tw : TerminalWindow) : TerminalWindow :=
  tw.with_cursor (fun cur => (cur.write ['\n', ' ']).moveBy (-1) 0)

/-- `clear_line(mode)`. -/
def clear_line (tw : TerminalWindow) (mode : LineClearMode) : TerminalWindow :=
  tw.with_cursor (fun cur =>
    match mode with
    | .Right => cur.clearLineRight
    | .Left => cur.clearLineLeft
    | .All => cur.clearLineAll)

/-- Empty every line whose index lies in `[a, b)` (the final loop of
`clear_screen`). -/
def clearLines (tw : TerminalWindow) (a b : Nat) : TerminalWindow :=
  { tw with buffer :=
    { tw.buffer with lines := tw.buffer.lines.mapIdx (fun i l =>
        if a ≤ i ∧ i < b then l.clear else l) } }

/-- `clear_screen(mode)`: compute the range of lines to empty exactly
as the source does ( `i32` clamps included), after the respective
`clear_line` call. -/
def clear_screen (tw : TerminalWindow) (mode : ClearMode) : TerminalWindow :=
  match mode with
  | .Saved => tw
  | .Below =>
    let tw := tw.clear_line .Right
    let range_end := tw.buffer.lines.length
    let cursor_pos := tw.cursor_state.y
    let range_start := (BufCursor.intClamp (cursor_pos + 1) 0 (range_end : Int)).toNat
    tw.clearLines range_start range_end
  | .Above =>
    let tw := tw.clear_line .Left
    let range_start := tw.buffer.lines.length - tw.window_height
    let cursor_pos := tw.cursor_state.y
    let range_end :=
      (BufCursor.intClamp cursor_pos (range_start : Int) (tw.buffer.lines.length : Int)).toNat
    tw.clearLines range_start range_end
  | .All =>
    tw.clearLines (tw.buffer.lines.length - tw.window_height) tw.buffer.lines.length

/-- `terminal_attribute(attr)`: the SGR dispatch; unimplemented
attributes only log. -/
def terminal_attribute (tw : TerminalWindow) (attr : Attr) : TerminalWindow :=
  tw.with_cursor (fun c =>
    match attr with
    | .Reset => c.setStyleModifier StyleModifier.new
    | .Bold => c.applyStyleModifier (StyleModifier.new.withBold (.set true))
    | .Dim => c
    | .Italic => c.applyStyleModifier (StyleModifier.new.withItalic (.set true))
    | .Underscore => c.applyStyleModifier (StyleModifier.new.withUnderline (.set true))
    | .BlinkSlow => c
    | .BlinkFast => c
    | .Reverse => c.applyStyleModifier (StyleModifier.new.withInvert (.set true))
    | .Hidden => c
    | .Strike => c
    | .CancelBold => c.applyStyleModifier (StyleModifier.new.withBold (.set false))
    | .CancelBoldDim => c.applyStyleModifier (StyleModifier.new.withBold (.set false))
    | .CancelItalic => c.applyStyleModifier (StyleModifier.new.withItalic (.set false))
    | .CancelUnderline => c.applyStyleModifier (StyleModifier.new.withUnderline (.set false))
    | .CancelBlink => c
    | .CancelReverse => c.applyStyleModifier (StyleModifier.new.withInvert (.set false))
    | .CancelHidden => c
    | .CancelStrike => c
    | .Foreground color =>
      c.applyStyleModifier (StyleModifier.new.withFg (ansi_to_unsegen_color color))
    | .Background color =>
      c.applyStyleModifier (StyleModifier.new.withBg (ansi_to_unsegen_color color)))

/-- `set_cursor_style(style)`. -/
def set_cursor_style (tw : TerminalWindow) (s : CursorStyle) : TerminalWindow :=
  { tw with cursor_style := s }

/-! `impl Scrollable for DualWindow` (src/terminalwindow.rs); every
field access dereferences to the active window, so the state change is
embedded per window. `true` stands for `Ok(())`, `false` for
`Err(())`. -/

/-- `scroll_forwards`. -/
def scroll_forwards (tw : TerminalWindow) : TerminalWindow × Bool :=
  let current := tw.current_scrollback_pos
  let candidate := current + (tw.scroll_step : Int)
  let sp := if candidate < (tw.buffer.height_as_displayed : Int) then some candidate else none
  ({ tw with scrollback_position := sp }, sp.isSome)

/-- `scroll_backwards` (`positive_or_zero` is `max 0`). -/
def scroll_backwards (tw : TerminalWindow) : TerminalWindow × Bool :=
  let current := tw.current_scrollback_pos
  if (tw.window_height : Int) < current then
    ({ tw with scrollback_position := some (max 0 (current - (tw.scroll_step : Int))) }, true)
  else (tw, false)

/-- `scroll_to_beginning`. -/
def scroll_to_beginning (tw : TerminalWindow) : TerminalWindow × Bool :=
  let current := tw.current_scrollback_pos
  if (tw.window_height : Int) < current then
    ({ tw with scrollback_position := some (tw.window_height : Int) }, true)
  else (tw, false)

/-- `scroll_to_end`. -/
def scroll_to_end (tw : TerminalWindow) : TerminalWindow × Bool :=
  if tw.scrollback_position.isSome then
    ({ tw with scrollback_position := none }, true)
  else (tw, false)

end TerminalWindow

/-! ## DualWindow (src/terminalwindow.rs, `struct DualWindow`) -/

/-- `enum BufferMode { Main, Alternate }`. -/
inductive BufferMode where
  | Main
  | Alternate
  deriving DecidableEq, Repr

/-- `DualWindow { main, alternate, mode }`. -/
structure DualWindow where
  main : TerminalWindow
  alternate : TerminalWindow
  mode : BufferMode
  deriving DecidableEq, Repr

namespace DualWindow

/-- `DualWindow::new()`. -/
def new : DualWindow :=
  { main := TerminalWindow.new, alternate := TerminalWindow.new, mode := .Main }

/-- The `Deref` impl: the active window. -/
def active (d : DualWindow) : TerminalWindow :=
  match d.mode with
  | .Main => d.main
  | .Alternate => d.alternate

/-- The `DerefMut` impl: mutate the active window. -/
def modifyActive (d : DualWindow) (f : TerminalWindow → TerminalWindow) : DualWindow :=
  match d.mode with
  | .Main => { d with main := f d.main }
  | .Alternate => { d with alternate := f d.alternate }

/-- `DerefMut` for a method that also returns a value. -/
def modifyActiveRes {α : Type} (d : DualWindow)
    (f : TerminalWindow → TerminalWindow × α) : DualWindow × α :=
  match d.mode with
  | .Main =>
    let (tw, r) := f d.main
    ({ d with main := tw }, r)
  | .Alternate =>
    let (tw, r) := f d.alternate
    ({ d with alternate := tw }, r)

/-- `set_mode`: `ShowCursor` shows the cursor of the active window;
`SwapScreenAndSetRestoreCursor` activates the alternate buffer; every
other mode only logs. -/
def set_mode (d : DualWindow) (m : Mode) : DualWindow :=
  match m with
  | .ShowCursor => d.modifyActive (fun tw => { tw with show_cursor := true })
  | .SwapScreenAndSetRestoreCursor => { d with mode := .Alternate }
  | .OtherMode => d

/-- `unset_mode`: dual to `set_mode`;
`SwapScreenAndSetRestoreCursor` re-activates the main buffer. -/
def unset_mode (d : DualWindow) (m : Mode) : DualWindow :=
  match m with
  | .ShowCursor => d.modifyActive (fun tw => { tw with show_cursor := false })
  | .SwapScreenAndSetRestoreCursor => { d with mode := .Main }
  | .OtherMode => d

end DualWindow

/-- The `Handler` interface of `DualWindow`: one constructor per
method. Methods whose body only logs a warning carry no state effect
and are grouped by their (ignored) argument types. -/
inductive HandlerOp where
  | set_title
  | set_cursor_style (s : CursorStyle)
  | input (c : Char)
  | goto (line col : Nat)
  | goto_line (line : Nat)
  | goto_col (col : Nat)
  | insert_blank (n : Nat)
  | move_up (n : Nat)
  | move_down (n : Nat)
  | identify_terminal
  | device_status
  | move_forward (n : Nat)
  | move_backward (n : Nat)
  | move_down_and_cr (n : Nat)
  | move_up_and_cr (n : Nat)
  | put_tab (n : Int)
  | backspace
  | carriage_return
  | linefeed
  | bell
  | substitute
  | newline
  | set_horizontal_tabstop
  | scroll_up (n : Nat)
  | scroll_down (n : Nat)
  | insert_blank_lines (n : Nat)
  | delete_lines (n : Nat)
  | erase_chars (n : Nat)
  | delete_chars (n : Nat)
  | move_backward_tabs (n : Int)
  | move_forward_tabs (n : Int)
  | save_cursor_position
  | restore_cursor_position
  | clear_line (m : LineClearMode)
  | clear_screen (m : ClearMode)
  | clear_tabs
  | reset_state
  | reverse_index
  | terminal_attribute (a : Attr)
  | set_mode (m : Mode)
  | unset_mode (m : Mode)
  | set_scrolling_region
  | set_keypad_application_mode
  | unset_keypad_application_mode
  | set_active_charset
  | configure_charset
  | set_color
  | dectest
  deriving DecidableEq, Repr

/-- Dispatch of one handler method on the dual window; every method
except `set_mode`/`unset_mode` reaches only the active window. -/
def applyHandlerOp (op : HandlerOp) (d : DualWindow) : DualWindow :=
  match op with
  | .set_title => d
  | .set_cursor_style s => d.modifyActive (fun tw => tw.set_cursor_style s)
  | .input c => d.modifyActive (fun tw => tw.input c)
  | .goto line col => d.modifyActive (fun tw => tw.goto line col)
  | .goto_line line => d.modifyActive (fun tw => tw.goto_line line)
  | .goto_col col => d.modifyActive (fun tw => tw.goto_col col)
  | .insert_blank _ => d
  | .move_up n => d.modifyActive (fun tw => tw.move_up n)
  | .move_down n => d.modifyActive (fun tw => tw.move_down n)
  | .identify_terminal => d
  | .device_status => d
  | .move_forward n => d.modifyActive (fun tw => tw.move_forward n)
  | .move_backward n => d.modifyActive (fun tw => tw.move_backward n)
  | .move_down_and_cr _ => d
  | .move_up_and_cr _ => d
  | .put_tab n => d.modifyActive (fun tw => tw.put_tab n)
  | .backspace => d.modifyActive TerminalWindow.backspace
  | .carriage_return => d.modifyActive TerminalWindow.carriage_return
  | .linefeed => d.modifyActive TerminalWindow.linefeed
  | .bell => d
  | .substitute => d
  | .newline => d
  | .set_horizontal_tabstop => d
  | .scroll_up _ => d
  | .scroll_down _ => d
  | .insert_blank_lines _ => d
  | .delete_lines _ => d
  | .erase_chars _ => d
  | .delete_chars _ => d
  | .move_backward_tabs _ => d
  | .move_forward_tabs _ => d
  | .save_cursor_position => d
  | .restore_cursor_position => d
  | .clear_line m => d.modifyActive (fun tw => tw.clear_line m)
  | .clear_screen m => d.modifyActive (fun tw => tw.clear_screen m)
  | .clear_tabs => d
  | .reset_state => d
  | .reverse_index => d
  | .terminal_attribute a => d.modifyActive (fun tw => tw.terminal_attribute a)
  | .set_mode m => d.set_mode m
  | .unset_mode m => d.unset_mode m
  | .set_scrolling_region => d
  | .set_keypad_application_mode => d
  | .unset_keypad_application_mode => d
  | .set_active_charset => d
  | .configure_charset => d
  | .set_color => d
  | .dectest => d

/-- A sequence of handler operations, applied left to right. -/
def applyHandlerOps (ops : List HandlerOp) (d : DualWindow) : DualWindow :=
  ops.foldl (fun d op => applyHandlerOp op d) d

/-! ## Widget-level operations (src/lib.rs `Terminal`): everything the
widget can do to its `DualWindow` state. -/

namespace DualWindow

/-- `TerminalWindow::draw` called through `DerefMut` (the widget's
`draw` after `ensure_size`). -/
def draw (d : DualWindow) (width height : Nat) : DualWindow :=
  d.modifyActive (fun tw => tw.draw width height)

/-- The window-state part of `Terminal::ensure_size`: when the host
window dimensions differ from the active window's, update width and
height (the accompanying pty ioctl is modelled separately). -/
def ensure_size_state (d : DualWindow) (w h : Nat) : DualWindow :=
  if w ≠ d.active.window_width ∨ h ≠ d.active.window_height then
    d.modifyActive (fun tw => (tw.set_width w).set_height h)
  else d

def scroll_forwards (d : DualWindow) : DualWindow × Bool :=
  d.modifyActiveRes TerminalWindow.scroll_forwards

def scroll_backwards (d : DualWindow) : DualWindow × Bool :=
  d.modifyActiveRes TerminalWindow.scroll_backwards

def scroll_to_beginning (d : DualWindow) : DualWindow × Bool :=
  d.modifyActiveRes TerminalWindow.scroll_to_beginning

def scroll_to_end (d : DualWindow) : DualWindow × Bool :=
  d.modifyActiveRes TerminalWindow.scroll_to_end

end DualWindow

/-- Every operation the widget facade ever performs on its window
state: handler dispatch from `add_byte_input`, the four scroll
operations, and the draw path (`ensure_size` followed by the render). -/
inductive WidgetOp where
  | handler (op : HandlerOp)
  | scroll_forwards
  | scroll_backwards
  | scroll_to_beginning
  | scroll_to_end
  | ensure_size (w h : Nat)
  | draw (width height : Nat)
  deriving DecidableEq, Repr

def applyWidgetOp (op : WidgetOp) (d : DualWindow) : DualWindow :=
  match op with
  | .handler hop => applyHandlerOp hop d
  | .scroll_forwards => d.scroll_forwards.1
  | .scroll_backwards => d.scroll_backwards.1
  | .scroll_to_beginning => d.scroll_to_beginning.1
  | .scroll_to_end => d.scroll_to_end.1
  | .ensure_size w h => d.ensure_size_state w h
  | .draw w h => d.draw w h

def applyWidgetOps (ops : List WidgetOp) (d : DualWindow) : DualWindow :=
  ops.foldl (fun d op => applyWidgetOp op d) d

/-! ## PTY facade (src/pty/mod.rs, src/lib.rs) -/

/-- `open_ptm()`: three syscalls in sequence (`posix_openpt`,
`grantpt`, `unlockpt`), each checked by `unsafe_try` — a negative
return value aborts with `Err(last_error())`, i.e. the ambient
`errno`. On success the master fd (the `posix_openpt` return value) is
returned. The syscall return values and the errno are inputs of the
model. -/
def open_ptm (openptRet grantptRet unlockptRet : Int) (errno : Nat) : Except Nat Int :=
  if openptRet < 0 then .error errno
  else if grantptRet < 0 then .error errno
  else if unlockptRet < 0 then .error errno
  else .ok openptRet

/-- One chunk delivered to the `SlaveInputSink` (the bytes of one
read). -/
def Chunk : Type := List Nat
deriving instance DecidableEq, Repr for Chunk

/-- `read_slave_input_loop` (src/lib.rs): `while let Ok(n) =
reader.read(&mut buffer)` — each successful read of `n` bytes is copied
into a fresh boxed slice and delivered to the sink; the loop exits only
when a read returns `Err`. The sequence of read results is an input of
the model; the output is the sequence of chunks delivered. -/
def read_slave_input_loop : List (Except Unit Chunk) → List Chunk
  | [] => []
  | .ok chunk :: rest => chunk :: read_slave_input_loop rest
  | .error _ :: _ => []

/-- The possible outcomes of `Terminal::new`. -/
inductive NewOutcome where
  | panicked (msg : String)
  | err (e : Nat)
  | ok
  deriving DecidableEq, Repr

/-- `Terminal::new` (src/lib.rs), control flow over its fallible steps:
`PTY::open()` (that is, `open_ptm`) is unwrapped with
`.expect("Could not create pty.")` — a failure PANICS; the reader
thread spawn and the slave open/write use `?` and surface their errors
as `Err`. `spawnRes`, `slaveOpenRes` and `slaveWriteRes` stand for the
results of those operations (io error codes). -/
def Terminal.new (ptyOpen : Except Nat Int)
    (spawnRes slaveOpenRes slaveWriteRes : Except Nat Unit) : NewOutcome :=
  match ptyOpen with
  | .error _ => .panicked "Could not create pty."
  | .ok _fd =>
    match spawnRes with
    | .error e => .err e
    | .ok _ =>
      match slaveOpenRes with
      | .error e => .err e
      | .ok _ =>
        match slaveWriteRes with
        | .error e => .err e
        | .ok _ => .ok

/-- The possible outcomes of `Terminal::ensure_size`. -/
inductive EnsureSizeOutcome where
  | panicked (msg : String)
  | done (d : DualWindow) (resizeCall : Option (Nat × Nat × Nat × Nat))
  deriving DecidableEq, Repr

/-- `Terminal::ensure_size` (src/lib.rs): when the host window size
differs from the active window's, update width and height and issue
`resize(w, h, w, h)` on the pty input, unwrapped with
`.expect("Resize pty")` — a resize failure PANICS. When the sizes
match, nothing happens and no ioctl is issued. `resizeRes` stands for
the result of the `TIOCSWINSZ` ioctl. -/
def Terminal.ensure_size (d : DualWindow) (w h : Nat)
    (resizeRes : Except Nat Unit) : EnsureSizeOutcome :=
  if w ≠ d.active.window_width ∨ h ≠ d.active.window_height then
    let d' := d.modifyActive (fun tw => (tw.set_width w).set_height h)
    match resizeRes with
    | .error _ => .panicked "Resize pty"
    | .ok _ => .done d' (some (w, h, w, h))
  else .done d none

/-! ## Claim theorems -/

/-- Claim C3 (the code violates it): `draw` does NOT leave the line
buffer as it was. The cursor-style toggle runs before the
width/height/empty early return, `get_current_cell_mut` grows the
buffer at the cursor position, and the early return skips the
reverting toggle. On a fresh window (`show_cursor = true`, empty
buffer) drawn into a width-0 host window, the buffer gains a line with
an invert-toggled cell; even with positive width and height the buffer
keeps the grown line after the revert. -/
theorem c3_draw_mutates_buffer :
    ((TerminalWindow.new.draw 0 1).buffer ≠ TerminalWindow.new.buffer)
  ∧ ((TerminalWindow.new.draw 5 1).buffer ≠ TerminalWindow.new.buffer)
  ∧ TerminalWindow.new.show_cursor = true := by
  refine ⟨?_, ?_, rfl⟩ <;> decide

/-- Claim C4 (confirmed): `scroll_forwards` pins the offset to
`current + step` exactly when that candidate is below the displayed
height, clears it (snaps to the tail) otherwise, and returns `Ok`
exactly when the resulting offset is still pinned; in particular it
fails when already at the tail and on the move that reaches the
tail. -/
theorem c4_scroll_forwards (tw : TerminalWindow) :
    ((tw.current_scrollback_pos + (tw.scroll_step : Int) < (tw.buffer.height_as_displayed : Int)) →
      (tw.scroll_forwards.1).scrollback_position =
        some (tw.current_scrollback_pos + (tw.scroll_step : Int)))
  ∧ (¬(tw.current_scrollback_pos + (tw.scroll_step : Int) < (tw.buffer.height_as_displayed : Int)) →
      (tw.scroll_forwards.1).scrollback_position = none)
  ∧ (tw.scroll_forwards.2 = true ↔ ((tw.scroll_forwards.1).scrollback_position).isSome = true)
  ∧ (tw.scrollback_position = none → tw.scroll_forwards.2 = false)
  ∧ ((tw.scroll_forwards.1).scrollback_position = none → tw.scroll_forwards.2 = false) := by
  unfold TerminalWindow.scroll_forwards
  refine ⟨fun h => ?_, fun h => ?_, ?_, fun h => ?_, fun h => ?_⟩
  · simp only [if_pos h]
  · simp only [if_neg h]
  · by_cases h : tw.current_scrollback_pos + (tw.scroll_step : Int) <
        (tw.buffer.height_as_displayed : Int) <;> simp [h]
  · have hc : tw.current_scrollback_pos = (tw.buffer.height_as_displayed : Int) := by
      simp [TerminalWindow.current_scrollback_pos, h]
    have : ¬(tw.current_scrollback_pos + (tw.scroll_step : Int) <
        (tw.buffer.height_as_displayed : Int)) := by
      rw [hc]; omega
    simp [this]
  · by_cases hlt : tw.current_scrollback_pos + (tw.scroll_step : Int) <
        (tw.buffer.height_as_displayed : Int)
    · simp [hlt] at h
    · simp [hlt]

/-- Claim C4 witness: a concrete state exercising the theorem. -/
theorem c4_witness :
    (TerminalWindow.new.scroll_forwards.1).scrollback_position = none :=
  (c4_scroll_forwards TerminalWindow.new).2.1 (by decide)

/-- A scrollback state on which `scroll_forwards` reaches the tail:
five (empty) buffer lines displayed one row each, window height 2,
offset pinned at 4 — one displayed row above the tail. -/
def scrollTailWindow : TerminalWindow :=
  { TerminalWindow.new with
    window_height := 2
    buffer := { LineBuffer.new with
      lines := [Line.empty, Line.empty, Line.empty, Line.empty, Line.empty] }
    scrollback_position := some 4 }

/-- Claim C5 counterexample: `scroll_forwards` on `scrollTailWindow`
moves the viewport (the scrollback position goes from 4 to the tail,
5) yet returns `Err`, refuting "Ok if and only if it actually changed
the viewport position" for the four scroll operations. -/
theorem c5_counterexample :
    scrollTailWindow.scroll_forwards.2 = false
  ∧ (scrollTailWindow.scroll_forwards.1).current_scrollback_pos = 5
  ∧ scrollTailWindow.current_scrollback_pos = 4 := by
  refine ⟨?_, ?_, ?_⟩ <;> decide

/-- Claim C5 (corrected): `scroll_backwards`, `scroll_to_beginning` and
`scroll_to_end` return `Ok` exactly when they changed the scrollback
offset; `scroll_forwards` instead returns `Ok` exactly when the offset
is still pinned after the call — the move that lands on the tail
changes the viewport but reports `Err`. (The widget always runs with
`scroll_step = 1`, cf. claim C10.) -/
theorem c5_ok_iff_moved (tw : TerminalWindow) (hstep : tw.scroll_step = 1) :
    (tw.scroll_backwards.2 = true ↔
      (tw.scroll_backwards.1).scrollback_position ≠ tw.scrollback_position)
  ∧ (tw.scroll_to_beginning.2 = true ↔
      (tw.scroll_to_beginning.1).scrollback_position ≠ tw.scrollback_position)
  ∧ (tw.scroll_to_end.2 = true ↔
      (tw.scroll_to_end.1).scrollback_position ≠ tw.scrollback_position)
  ∧ (tw.scroll_forwards.2 = true ↔
      ((tw.scroll_forwards.1).scrollback_position).isSome = true) := by
  refine ⟨?_, ?_, ?_, ?_⟩
  · unfold TerminalWindow.scroll_backwards
    by_cases h : (tw.window_height : Int) < tw.current_scrollback_pos
    · simp only [if_pos h, hstep, Nat.cast_one]
      refine ⟨fun _ => ?_, fun _ => trivial⟩
      cases hsp : tw.scrollback_position with
      | none => exact Option.some_ne_none _
      | some c =>
        have hc : tw.current_scrollback_pos = c := by
          simp [TerminalWindow.current_scrollback_pos, hsp]
        intro hEq
        have h2 := Option.some.inj hEq
        rw [hc] at h h2
        rw [max_eq_right (by omega : (0 : Int) ≤ c - 1)] at h2
        omega
    · simp [if_neg h]
  · unfold TerminalWindow.scroll_to_beginning
    by_cases h : (tw.window_height : Int) < tw.current_scrollback_pos
    · simp only [if_pos h]
      refine ⟨fun _ => ?_, fun _ => trivial⟩
      cases hsp : tw.scrollback_position with
      | none => exact Option.some_ne_none _
      | some c =>
        have hc : tw.current_scrollback_pos = c := by
          simp [TerminalWindow.current_scrollback_pos, hsp]
        intro hEq
        have h2 := Option.some.inj hEq
        rw [hc] at h
        omega
    · simp [if_neg h]
  · unfold TerminalWindow.scroll_to_end
    cases hsp : tw.scrollback_position with
    | none => simp [hsp]
    | some c => simp [hsp]
  · unfold TerminalWindow.scroll_forwards
    by_cases h : tw.current_scrollback_pos + (tw.scroll_step : Int) <
        (tw.buffer.height_as_displayed : Int) <;> simp [h]

/-- Claim C5 witness: the theorem applied to a concrete pinned state. -/
theorem c5_witness :
    scrollTailWindow.scroll_to_end.2 = true ↔
      (scrollTailWindow.scroll_to_end.1).scrollback_position ≠
        scrollTailWindow.scrollback_position :=
  (c5_ok_iff_moved scrollTailWindow rfl).2.2.1

/-- Claim C6 counterexample: after a read that signals EOF by returning
0 bytes (`Ok` with an empty chunk), the loop keeps running — the next
read is performed and its chunk delivered — refuting "terminates when a
read signals EOF by returning 0 bytes; it never keeps looping after
EOF". -/
theorem c6_counterexample :
    read_slave_input_loop [Except.ok [], Except.ok [65]] = [[], [65]] := by
  rfl

/-- Claim C6 (corrected): the reader loop exits exactly when a read
returns an error; a successful read — including a 0-byte EOF read —
delivers its (possibly empty) chunk to the sink and the loop
continues. -/
theorem c6_loop_exits_on_error_only (chunks : List Chunk)
    (rest : List (Except Unit Chunk)) (c : Chunk) :
    read_slave_input_loop (chunks.map Except.ok ++ Except.error () :: rest) = chunks
  ∧ read_slave_input_loop (Except.ok c :: rest) = c :: read_slave_input_loop rest
  ∧ read_slave_input_loop (Except.error () :: rest) = [] := by
  refine ⟨?_, rfl, rfl⟩
  induction chunks with
  | nil => rfl
  | cons hd tl ih => simpa [read_slave_input_loop] using ih

/-- Claim C7 counterexample: with `posix_openpt` failing (return value
`-1`, errno 13) and every later step fine, `Terminal::new` panics with
"Could not create pty." — it does not return the failure as a system
error. -/
theorem c7_counterexample :
    Terminal.new (open_ptm (-1) 0 0 13) (.ok ()) (.ok ()) (.ok ()) =
      .panicked "Could not create pty."
  ∧ Terminal.new (open_ptm (-1) 0 0 13) (.ok ()) (.ok ()) (.ok ()) ≠ .err 13 := by
  exact ⟨rfl, by decide⟩

/-- Claim C7 (corrected): whenever opening the pseudoterminal fails
(`posix_openpt`, `grantpt` or `unlockpt` returns a negative value),
`Terminal::new` panics — the `.expect("Could not create pty.")` call
aborts instead of surfacing the error — and no widget value is
created. -/
theorem c7_new_panics_on_pty_failure (openptRet grantptRet unlockptRet : Int)
    (errno : Nat) (spawnRes slaveOpenRes slaveWriteRes : Except Nat Unit)
    (h : openptRet < 0 ∨ grantptRet < 0 ∨ unlockptRet < 0) :
    Terminal.new (open_ptm openptRet grantptRet unlockptRet errno)
        spawnRes slaveOpenRes slaveWriteRes = .panicked "Could not create pty." := by
  unfold open_ptm Terminal.new
  rcases h with h | h | h
  · rw [if_pos h]
  · by_cases h1 : openptRet < 0
    · rw [if_pos h1]
    · rw [if_neg h1, if_pos h]
  · by_cases h1 : openptRet < 0
    · rw [if_pos h1]
    · rw [if_neg h1]
      by_cases h2 : grantptRet < 0
      · rw [if_pos h2]
      · rw [if_neg h2, if_pos h]

/-- Claim C7 witness: the theorem at a concrete failing `grantpt`. -/
theorem c7_witness :
    Terminal.new (open_ptm 3 (-1) 0 5) (.ok ()) (.ok ()) (.ok ()) =
      .panicked "Could not create pty." :=
  c7_new_panics_on_pty_failure 3 (-1) 0 5 (.ok ()) (.ok ()) (.ok ())
    (Or.inr (Or.inl (by decide)))

/-- Claim C8 counterexample: a draw onto a 5×3 host window with a fresh
0×0 widget issues the resize ioctl; when that ioctl fails the widget
panics with "Resize pty" instead of logging and continuing. -/
theorem c8_counterexample :
    Terminal.ensure_size DualWindow.new 5 3 (.error 5) = .panicked "Resize pty" := by
  decide

/-- Claim C8 (corrected): on a draw whose host dimensions differ from
the active window's, `ensure_size` updates width and height and issues
`resize(w, h, w, h)`; if that ioctl fails the `.expect("Resize pty")`
call panics — the failure is neither logged-and-ignored nor returned to
the caller. When the dimensions already match, nothing happens and no
ioctl is issued. -/
theorem c8_resize_failure_panics (d : DualWindow) (w h : Nat) (e : Nat)
    (rc : Except Nat Unit) :
    ((w ≠ d.active.window_width ∨ h ≠ d.active.window_height) →
        Terminal.ensure_size d w h (.error e) = .panicked "Resize pty"
      ∧ Terminal.ensure_size d w h (.ok ()) =
          .done (d.modifyActive (fun tw => (tw.set_width w).set_height h))
            (some (w, h, w, h)))
  ∧ ((w = d.active.window_width ∧ h = d.active.window_height) →
      Terminal.ensure_size d w h rc = .done d none) := by
  constructor
  · intro hdiff
    unfold Terminal.ensure_size
    rw [if_pos hdiff, if_pos hdiff]
    exact ⟨rfl, rfl⟩
  · intro ⟨hw, hh⟩
    unfold Terminal.ensure_size
    rw [if_neg (by push_neg; exact ⟨hw, hh⟩)]

/-- Claim C8 witness: the theorem at a concrete state. -/
theorem c8_witness :
    Terminal.ensure_size DualWindow.new 5 3 (.ok ()) =
      .done (DualWindow.new.modifyActive (fun tw => (tw.set_width 5).set_height 3))
        (some (5, 3, 5, 3)) :=
  ((c8_resize_failure_panics DualWindow.new 5 3 0 (.ok ())).1 (by decide)).2

/-- Claim C1 counterexample: `get_cell` at the non-negative coordinate
(0, 0) of an empty buffer panics (the `lines.get(y).expect(..)` call)
instead of returning a cell, refuting "querying a cell of the line
buffer (get_cell, or get_cell_mut …) returns a cell and never fails"
for `x ≥ 0, y ≥ 0`. -/
theorem c1_counterexample :
    LineBuffer.new.get_cell 0 0 = .error () := by
  rfl

/-- Claim C1 (corrected): `get_cell_mut` returns a cell for every
`x ≥ 0, y ≥ 0` (growing the buffer with default cells on demand),
growing on write never truncates existing content (every cell present
before the call is unchanged afterwards), and negative `x` or `y`
yields no cell from `get_cell_mut`; the immutable `get_cell` returns
"no cell" for negative `y` but panics for in-range-sign coordinates
that lie beyond the existing content. -/
theorem c1_cell_queries (b : LineBuffer) (x y : Int) :
    (0 ≤ x → 0 ≤ y → ((b.get_cell_mut x y).2).isSome = true)
  ∧ (∀ i j (c : StyledGraphemeCluster), b.cellAt i j = some c →
      ((b.get_cell_mut x y).1).cellAt i j = some c)
  ∧ ((x < 0 ∨ y < 0) → (b.get_cell_mut x y).2 = none)
  ∧ (y < 0 → b.get_cell x y = .ok none) := by
  refine ⟨?_, ?_, ?_, ?_⟩
  · intro hx hy
    simp [LineBuffer.get_cell_mut, Line.get_cell_mut, not_lt.mpr hy, not_lt.mpr hx]
  · intro i j c hcell
    by_cases hy : y < 0
    · simpa [LineBuffer.get_cell_mut, hy] using hcell
    · unfold LineBuffer.cellAt at hcell
      cases hL : b.lines[j]? with
      | none => rw [hL] at hcell; exact absurd hcell (by simp)
      | some L =>
        rw [hL] at hcell
        have hj : j < b.lines.length := (List.getElem?_eq_some.mp hL).1
        have hi : i < L.content.length := (List.getElem?_eq_some.mp hcell).1
        simp only [LineBuffer.get_cell_mut, if_neg hy]
        unfold LineBuffer.cellAt
        by_cases hjy : j = y.toNat
        · subst hjy
          have hlen : y.toNat < (b.lines ++
              List.replicate (y.toNat + 1 - b.lines.length) Line.empty).length := by
            simp; omega
          rw [List.getElem?_set_self hlen]
          have hline : (b.lines ++
              List.replicate (y.toNat + 1 - b.lines.length) Line.empty).getD
                y.toNat Line.empty = L := by
            rw [List.getD, List.get?_eq_getElem?, List.getElem?_append_left hj, hL]
            rfl
          rw [hline]
          unfold Line.get_cell_mut
          by_cases hx : x < 0
          · rw [if_pos hx]
            exact hcell
          · rw [if_neg hx]
            simp only
            rw [List.getElem?_append_left hi]
            exact hcell
        · rw [List.getElem?_set_ne (fun h => hjy h.symm),
            List.getElem?_append_left hj, hL]
          exact hcell
  · intro h
    rcases h with hx | hy
    · by_cases hy : y < 0
      · simp [LineBuffer.get_cell_mut, hy]
      · simp [LineBuffer.get_cell_mut, Line.get_cell_mut, hy, hx]
    · simp [LineBuffer.get_cell_mut, hy]
  · intro hy
    simp [LineBuffer.get_cell, hy]

/-- Claim C1 witness: the theorem at a concrete buffer and concrete
coordinates, both in the growing and in the rejected regime. -/
theorem c1_witness :
    ((LineBuffer.new.get_cell_mut 2 1).2).isSome = true
  ∧ (LineBuffer.new.get_cell_mut (-1) 0).2 = none
  ∧ LineBuffer.new.get_cell 0 (-2) = .ok none := by
  refine ⟨(c1_cell_queries LineBuffer.new 2 1).1 (by decide) (by decide),
    (c1_cell_queries LineBuffer.new (-1) 0).2.2.1 (Or.inl (by decide)),
    (c1_cell_queries LineBuffer.new 0 (-2)).2.2.2 (by decide)⟩

/-- Writing through a cell reference never changes the number of
lines. -/
lemma LineBuffer.writeRef_lines_length (b : LineBuffer) (r : Nat × Nat)
    (f : StyledGraphemeCluster → StyledGraphemeCluster) :
    (b.writeRef r f).lines.length = b.lines.length := by
  unfold LineBuffer.writeRef
  split
  · split
    · simp
    · rfl
  · rfl

/-- The number of lines after `get_cell_mut` at a non-negative row. -/
lemma LineBuffer.get_cell_mut_lines_length (b : LineBuffer) (x y : Int)
    (hy : ¬y < 0) :
    ((b.get_cell_mut x y).1).lines.length =
      b.lines.length + (y.toNat + 1 - b.lines.length) := by
  unfold LineBuffer.get_cell_mut
  rw [if_neg hy]
  simp

/-- The cursor state after writing one cluster: the column advances. -/
lemma BufCursor.writeCluster_state (cur : BufCursor) (c : Char) :
    (cur.writeCluster c).state = { cur.state with x := cur.state.x + 1 } := rfl

/-- The number of lines after writing one cluster at a non-negative
row. -/
lemma BufCursor.writeCluster_lines_length (cur : BufCursor) (c : Char)
    (hy : ¬cur.state.y < 0) :
    (cur.writeCluster c).buffer.lines.length =
      cur.buffer.lines.length + (cur.state.y.toNat + 1 - cur.buffer.lines.length) := by
  unfold BufCursor.writeCluster
  simp only
  split
  · rw [LineBuffer.writeRef_lines_length, LineBuffer.get_cell_mut_lines_length _ _ _ hy]
  · rw [LineBuffer.get_cell_mut_lines_length _ _ _ hy]

/-- A window exercising the linefeed counterexample: one line "te" with
the cursor just past it, at column 2 of row 0. -/
def linefeedWindow : TerminalWindow :=
  { TerminalWindow.new with
    buffer := { LineBuffer.new with
      lines := [{ content := [{ grapheme := 't', style := Style.default },
                              { grapheme := 'e', style := Style.default }] }] }
    cursor_state := { CursorState.default with x := 2, y := 0 } }

/-- Claim C2 counterexample: `linefeed` from column 2 leaves the cursor
in column 0, not column 2 — the sentinel-space-and-backspace
implementation resets the column (as the repository's own rendering
test for input "te\nst" requires), refuting "leaves the cursor column
unchanged". -/
theorem c2_counterexample :
    linefeedWindow.linefeed.cursor_state.x = 0
  ∧ linefeedWindow.cursor_state.x = 2 := by
  exact ⟨by decide, rfl⟩

/-- Claim C2 (corrected): from any non-negative cursor row, `linefeed`
moves the cursor to row `row + 1`, grows the buffer so that the new row
exists, and sets the cursor column to 0. -/
theorem c2_linefeed (tw : TerminalWindow) (h : 0 ≤ tw.cursor_state.y) :
    (tw.linefeed).cursor_state.y = tw.cursor_state.y + 1
  ∧ (tw.linefeed).cursor_state.x = 0
  ∧ tw.cursor_state.y + 1 < ((tw.linefeed).buffer.lines.length : Int) := by
  have hwrap : ∀ cur : BufCursor, cur.write ['\n', ' '] = cur.wrapLine.writeCluster ' ' := by
    intro cur
    unfold BufCursor.write
    simp only [List.foldl_cons, List.foldl_nil]
    rw [if_neg (by decide : ¬((' ' : Char) = '\n')), if_true]
  simp only [TerminalWindow.linefeed, TerminalWindow.with_cursor]
  rw [hwrap]
  set cur : BufCursor := { state := tw.cursor_state, buffer := tw.buffer } with hcur
  have hstate : ((cur.wrapLine.writeCluster ' ').moveBy (-1) 0).state =
      { cur.state with x := 0, y := max 0 (tw.cursor_state.y + 1) } := by
    rw [BufCursor.moveBy, BufCursor.writeCluster_state]
    simp [BufCursor.wrapLine, hcur]
  have hy1 : max 0 (tw.cursor_state.y + 1) = tw.cursor_state.y + 1 := by omega
  refine ⟨?_, ?_, ?_⟩
  · simp [hstate, hy1]
  · simp [hstate]
  · have hylen := BufCursor.writeCluster_lines_length cur.wrapLine ' '
      (by simp [BufCursor.wrapLine, hcur]; omega)
    have : ((cur.wrapLine.writeCluster ' ').moveBy (-1) 0).buffer =
        (cur.wrapLine.writeCluster ' ').buffer := rfl
    rw [this, hylen]
    simp only [BufCursor.wrapLine, hcur]
    have h2 : ((tw.cursor_state.y + 1).toNat : Int) = tw.cursor_state.y + 1 :=
      Int.toNat_of_nonneg (by omega)
    push_cast
    omega

/-- Claim C2 witness: the theorem at the concrete one-line window. -/
theorem c2_witness :
    linefeedWindow.linefeed.cursor_state.y = linefeedWindow.cursor_state.y + 1 :=
  (c2_linefeed linefeedWindow (by decide)).1

/-- Mutating the active window never changes which buffer is active. -/
lemma DualWindow.modifyActive_mode (d : DualWindow)
    (f : TerminalWindow → TerminalWindow) :
    (d.modifyActive f).mode = d.mode := by
  rcases d with ⟨ma, al, mo⟩
  cases mo <;> rfl

/-- Mutating the active window leaves `main` alone while the alternate
buffer is active. -/
lemma DualWindow.modifyActive_main_alt (d : DualWindow)
    (f : TerminalWindow → TerminalWindow) (hm : d.mode = .Alternate) :
    (d.modifyActive f).main = d.main := by
  rcases d with ⟨ma, al, mo⟩
  cases mo
  · exact absurd hm (by simp)
  · rfl

/-- Any single handler operation other than the two buffer switches
keeps the alternate buffer active and leaves `main` untouched. -/
lemma applyHandlerOp_preserves_main (op : HandlerOp) (d : DualWindow)
    (h1 : op ≠ .set_mode .SwapScreenAndSetRestoreCursor)
    (h2 : op ≠ .unset_mode .SwapScreenAndSetRestoreCursor)
    (hm : d.mode = .Alternate) :
    (applyHandlerOp op d).mode = .Alternate ∧ (applyHandlerOp op d).main = d.main := by
  cases op
  case set_mode m =>
    cases m
    case ShowCursor =>
      exact ⟨(DualWindow.modifyActive_mode _ _).trans hm,
        DualWindow.modifyActive_main_alt _ _ hm⟩
    case SwapScreenAndSetRestoreCursor => exact absurd rfl h1
    case OtherMode => exact ⟨hm, rfl⟩
  case unset_mode m =>
    cases m
    case ShowCursor =>
      exact ⟨(DualWindow.modifyActive_mode _ _).trans hm,
        DualWindow.modifyActive_main_alt _ _ hm⟩
    case SwapScreenAndSetRestoreCursor => exact absurd rfl h2
    case OtherMode => exact ⟨hm, rfl⟩
  all_goals first
    | exact ⟨(DualWindow.modifyActive_mode _ _).trans hm,
        DualWindow.modifyActive_main_alt _ _ hm⟩
    | exact ⟨hm, rfl⟩

/-- Lifting the previous lemma to a whole operation sequence. -/
lemma applyHandlerOps_preserves_main (ops : List HandlerOp) (d : DualWindow)
    (hops : ∀ op ∈ ops, op ≠ HandlerOp.set_mode .SwapScreenAndSetRestoreCursor ∧
      op ≠ HandlerOp.unset_mode .SwapScreenAndSetRestoreCursor)
    (hm : d.mode = .Alternate) :
    (applyHandlerOps ops d).mode = .Alternate
  ∧ (applyHandlerOps ops d).main = d.main := by
  induction ops generalizing d with
  | nil => exact ⟨hm, rfl⟩
  | cons op rest ih =>
    have h1 := (hops op (by simp)).1
    have h2 := (hops op (by simp)).2
    have hstep := applyHandlerOp_preserves_main op d h1 h2 hm
    have hrest := ih (applyHandlerOp op d)
      (fun o ho => hops o (by simp [ho])) hstep.1
    simp only [applyHandlerOps, List.foldl_cons] at *
    exact ⟨hrest.1, hrest.2.trans hstep.2⟩

/-- Claim C9 (confirmed): after switching to the alternate screen, any
sequence of handler operations (anything except the two buffer-switch
modes themselves) leaves the primary window completely unchanged, and a
subsequent `unset_mode(SwapScreenAndSetRestoreCursor)` makes the
primary window active again exactly as it was before the swap. -/
theorem c9_swap_preserves_primary (d : DualWindow) (ops : List HandlerOp)
    (hops : ∀ op ∈ ops, op ≠ HandlerOp.set_mode .SwapScreenAndSetRestoreCursor ∧
      op ≠ HandlerOp.unset_mode .SwapScreenAndSetRestoreCursor) :
    (applyHandlerOps ops (d.set_mode .SwapScreenAndSetRestoreCursor)).main = d.main
  ∧ ((applyHandlerOps ops (d.set_mode .SwapScreenAndSetRestoreCursor)).unset_mode
      .SwapScreenAndSetRestoreCursor).mode = .Main
  ∧ ((applyHandlerOps ops (d.set_mode .SwapScreenAndSetRestoreCursor)).unset_mode
      .SwapScreenAndSetRestoreCursor).active = d.main := by
  have h := applyHandlerOps_preserves_main ops
    (d.set_mode .SwapScreenAndSetRestoreCursor) hops rfl
  exact ⟨h.2, rfl, h.2⟩

/-- Claim C9 witness: a concrete swap/write/unswap round trip. -/
theorem c9_witness :
    (applyHandlerOps [HandlerOp.input 'x', HandlerOp.linefeed,
        HandlerOp.clear_screen .All, HandlerOp.terminal_attribute .Bold]
      (DualWindow.new.set_mode .SwapScreenAndSetRestoreCursor)).main =
      DualWindow.new.main :=
  (c9_swap_preserves_primary DualWindow.new
    [HandlerOp.input 'x', HandlerOp.linefeed,
      HandlerOp.clear_screen .All, HandlerOp.terminal_attribute .Bold]
    (by decide)).1

/-- The four scroll operations never touch the scroll step. -/
lemma TerminalWindow.scroll_ops_scroll_step (tw : TerminalWindow) :
    (tw.scroll_forwards.1).scroll_step = tw.scroll_step
  ∧ (tw.scroll_backwards.1).scroll_step = tw.scroll_step
  ∧ (tw.scroll_to_beginning.1).scroll_step = tw.scroll_step
  ∧ (tw.scroll_to_end.1).scroll_step = tw.scroll_step := by
  refine ⟨rfl, ?_, ?_, ?_⟩
  · simp only [TerminalWindow.scroll_backwards]
    split <;> rfl
  · simp only [TerminalWindow.scroll_to_beginning]
    split <;> rfl
  · simp only [TerminalWindow.scroll_to_end]
    split <;> rfl

/-- `draw` never touches the scroll step. -/
lemma TerminalWindow.draw_scroll_step (tw : TerminalWindow) (w h : Nat) :
    (tw.draw w h).scroll_step = tw.scroll_step := by
  simp only [TerminalWindow.draw]
  split <;> split <;> first | rfl | (split <;> rfl)

/-- Mutating the active window with a step-preserving function
preserves the scroll step of both windows. -/
lemma DualWindow.modifyActive_scroll_step (d : DualWindow)
    (f : TerminalWindow → TerminalWindow)
    (hf : ∀ tw, (f tw).scroll_step = tw.scroll_step) :
    (d.modifyActive f).main.scroll_step = d.main.scroll_step
  ∧ (d.modifyActive f).alternate.scroll_step = d.alternate.scroll_step := by
  rcases d with ⟨ma, al, mo⟩
  cases mo <;> simp [DualWindow.modifyActive, hf]

/-- The same for an active-window method that also returns a value. -/
lemma DualWindow.modifyActiveRes_scroll_step {α : Type} (d : DualWindow)
    (f : TerminalWindow → TerminalWindow × α)
    (hf : ∀ tw, ((f tw).1).scroll_step = tw.scroll_step) :
    ((d.modifyActiveRes f).1).main.scroll_step = d.main.scroll_step
  ∧ ((d.modifyActiveRes f).1).alternate.scroll_step = d.alternate.scroll_step := by
  rcases d with ⟨ma, al, mo⟩
  cases mo <;> simp [DualWindow.modifyActiveRes, hf]

/-- No single widget operation modifies the scroll step of either
window. -/
lemma applyWidgetOp_scroll_step (op : WidgetOp) (d : DualWindow) :
    (applyWidgetOp op d).main.scroll_step = d.main.scroll_step
  ∧ (applyWidgetOp op d).alternate.scroll_step = d.alternate.scroll_step := by
  cases op with
  | handler hop =>
    show (applyHandlerOp hop d).main.scroll_step = d.main.scroll_step ∧
      (applyHandlerOp hop d).alternate.scroll_step = d.alternate.scroll_step
    cases hop
    case set_mode m =>
      cases m
      case ShowCursor =>
        exact DualWindow.modifyActive_scroll_step _ _ (fun tw => rfl)
      all_goals exact ⟨rfl, rfl⟩
    case unset_mode m =>
      cases m
      case ShowCursor =>
        exact DualWindow.modifyActive_scroll_step _ _ (fun tw => rfl)
      all_goals exact ⟨rfl, rfl⟩
    case clear_line m =>
      exact DualWindow.modifyActive_scroll_step _ _ (fun tw => by cases m <;> rfl)
    case clear_screen m =>
      exact DualWindow.modifyActive_scroll_step _ _ (fun tw => by cases m <;> rfl)
    all_goals first
      | exact DualWindow.modifyActive_scroll_step _ _ (fun tw => rfl)
      | exact ⟨rfl, rfl⟩
  | scroll_forwards =>
    exact DualWindow.modifyActiveRes_scroll_step _ _
      (fun tw => (tw.scroll_ops_scroll_step).1)
  | scroll_backwards =>
    exact DualWindow.modifyActiveRes_scroll_step _ _
      (fun tw => (tw.scroll_ops_scroll_step).2.1)
  | scroll_to_beginning =>
    exact DualWindow.modifyActiveRes_scroll_step _ _
      (fun tw => (tw.scroll_ops_scroll_step).2.2.1)
  | scroll_to_end =>
    exact DualWindow.modifyActiveRes_scroll_step _ _
      (fun tw => (tw.scroll_ops_scroll_step).2.2.2)
  | ensure_size w h =>
    show (d.ensure_size_state w h).main.scroll_step = d.main.scroll_step ∧
      (d.ensure_size_state w h).alternate.scroll_step = d.alternate.scroll_step
    simp only [DualWindow.ensure_size_state]
    split
    · exact DualWindow.modifyActive_scroll_step _ _ (fun tw => rfl)
    · exact ⟨rfl, rfl⟩
  | draw w h =>
    exact DualWindow.modifyActive_scroll_step _ _
      (fun tw => tw.draw_scroll_step w h)

/-- Claim C10 (confirmed): both windows start with `scroll_step = 1`,
no widget operation ever modifies the scroll step, and with step 1
every successful `scroll_forwards`/`scroll_backwards` moves the
scrollback position by exactly one displayed row. -/
theorem c10_scroll_step_one :
    DualWindow.new.main.scroll_step = 1
  ∧ DualWindow.new.alternate.scroll_step = 1
  ∧ (∀ (ops : List WidgetOp) (d : DualWindow),
      (applyWidgetOps ops d).main.scroll_step = d.main.scroll_step
    ∧ (applyWidgetOps ops d).alternate.scroll_step = d.alternate.scroll_step)
  ∧ (∀ tw : TerminalWindow, tw.scroll_step = 1 → tw.scroll_forwards.2 = true →
      (tw.scroll_forwards.1).current_scrollback_pos = tw.current_scrollback_pos + 1)
  ∧ (∀ tw : TerminalWindow, tw.scroll_step = 1 → tw.scroll_backwards.2 = true →
      (tw.scroll_backwards.1).current_scrollback_pos = tw.current_scrollback_pos - 1) := by
  refine ⟨rfl, rfl, ?_, ?_, ?_⟩
  · intro ops
    induction ops with
    | nil => exact fun d => ⟨rfl, rfl⟩
    | cons op rest ih =>
      intro d
      have hstep := applyWidgetOp_scroll_step op d
      have hrest := ih (applyWidgetOp op d)
      simp only [applyWidgetOps, List.foldl_cons] at *
      exact ⟨hrest.1.trans hstep.1, hrest.2.trans hstep.2⟩
  · intro tw hstep hok
    unfold TerminalWindow.scroll_forwards at *
    by_cases hlt : tw.current_scrollback_pos + (tw.scroll_step : Int) <
        (tw.buffer.height_as_displayed : Int)
    · simp only [if_pos hlt] at *
      simp [TerminalWindow.current_scrollback_pos, hstep]
    · simp only [if_neg hlt] at hok
      simp at hok
  · intro tw hstep hok
    simp only [TerminalWindow.scroll_backwards] at hok ⊢
    by_cases hgt : (tw.window_height : Int) < tw.current_scrollback_pos
    · rw [if_pos hgt]
      have hmax : max 0 (tw.current_scrollback_pos - (tw.scroll_step : Int)) =
          tw.current_scrollback_pos - 1 := by
        rw [hstep]; push_cast; omega
      exact hmax
    · rw [if_neg hgt] at hok
      simp at hok

/-- Claim C10 witness: the movement parts of the theorem at a concrete
pinned state. -/
theorem c10_witness :
    ({ TerminalWindow.new with
        buffer := { LineBuffer.new with lines := [Line.empty, Line.empty, Line.empty] }
        scrollback_position := some 1 } :
          TerminalWindow).scroll_forwards.1.current_scrollback_pos =
      ({ TerminalWindow.new with
        buffer := { LineBuffer.new with lines := [Line.empty, Line.empty, Line.empty] }
        scrollback_position := some 1 } :
          TerminalWindow).current_scrollback_pos + 1 :=
  c10_scroll_step_one.2.2.2.1 _ rfl (by decide)
